import Mathlib

/-!
Shallow embedding of `pct/cmd/cmd.go` (qan-agent): a command runner with a
hard timeout, `>`-redirection detection, and PATH/HOME environment
preparation.  The nondeterministic interactions with the operating system
(`os.Executable`, `os.Args[0]`, `os.Getenv`, `os.Create`, the process run,
the kill attempt, and which select branch fires) are supplied as an explicit
`RunEnv` record; `RealCmd.Run` is then a pure function from the command and
that record to a `RunResult` recording the returned pair together with the
observable effects (PATH during and after the call, whether a file was
created, whether a process was spawned, the child environment override,
and the argument list handed to `exec.Command`).
-/

namespace QanCmd

/-- Go `unicode.IsSpace`: the Unicode White_Space code points. -/
def goIsSpace (c : Char) : Bool :=
  c = ' ' || c = '\t' || c = '\n' || c.toNat = 0x0B || c.toNat = 0x0C ||
  c = '\r' || c.toNat = 0x85 || c.toNat = 0xA0 || c.toNat = 0x1680 ||
  (0x2000 ≤ c.toNat && c.toNat ≤ 0x200A) || c.toNat = 0x2028 ||
  c.toNat = 0x2029 || c.toNat = 0x202F || c.toNat = 0x205F ||
  c.toNat = 0x3000

/-- Drop leading Go whitespace from a character list. -/
def goDropSpace : List Char → List Char
  | [] => []
  | c :: cs => if goIsSpace c then goDropSpace cs else c :: cs

/-- Go `strings.TrimSpace`: trim Unicode whitespace from both ends. -/
def goTrimSpace (s : String) : String :=
  ⟨((goDropSpace s.data).reverse |> goDropSpace).reverse⟩

/-- Go `strings.HasPrefix(s, ">")`: the first byte is `>` (ASCII, so the
first character test is exact). -/
def goHasGt (s : String) : Bool :=
  match s.data with
  | c :: _ => c = '>'
  | [] => false

/-- Go `strings.TrimPrefix(s, ">")`: drop one leading `>` when present. -/
def goTrimGt (s : String) : String :=
  match s.data with
  | c :: rest => if c = '>' then ⟨rest⟩ else s
  | [] => s

/-- The prefix of `s` up to and including its last slash (Go `path.Split`
first component); empty when `s` has no slash. -/
def dirPortion (s : String) : String :=
  ⟨(s.data.reverse.dropWhile (fun c => c ≠ '/')).reverse⟩

/-- Split a character list on `/`, keeping empty components, as Go
`strings.Split(p, "/")` does. -/
def splitSlashAux (cur : List Char) : List Char → List (List Char)
  | [] => [cur.reverse]
  | c :: cs =>
    if c = '/' then cur.reverse :: splitSlashAux [] cs
    else splitSlashAux (c :: cur) cs

/-- Split on `/` from the start. -/
def splitSlash (p : List Char) : List (List Char) :=
  splitSlashAux [] p

/-- Join components with `/` between them. -/
def joinSlash : List (List Char) → List Char
  | [] => []
  | [c] => c
  | c :: cs => c ++ '/' :: joinSlash cs

/-- One pass of Go `path.Clean`: process components left to right keeping a
reversed accumulator; empties and dots are dropped, a dotdot pops unless at
the root or accumulating leading dotdots. -/
def cleanRev (rooted : Bool) (acc : List (List Char)) :
    List (List Char) → List (List Char)
  | [] => acc
  | c :: cs =>
    if c = [] ∨ c = ['.'] then cleanRev rooted acc cs
    else if c = ['.', '.'] then
      match acc with
      | [] =>
        if rooted then cleanRev rooted [] cs
        else cleanRev rooted [['.', '.']] cs
      | a :: rest =>
        if a = ['.', '.'] then cleanRev rooted (c :: a :: rest) cs
        else cleanRev rooted rest cs
    else cleanRev rooted (c :: acc) cs

/-- Go `path.Clean` (slash-separated, lexical). -/
def pathClean (p : String) : String :=
  if p.data = [] then "." else
  let rooted : Bool :=
    match p.data with
    | '/' :: _ => true
    | _ => false
  let joined := joinSlash (cleanRev rooted [] (splitSlash p.data)).reverse
  if rooted then ⟨'/' :: joined⟩
  else if joined = [] then "." else ⟨joined⟩

/-- Go `path.Dir`: everything up to the final slash, cleaned. -/
def pathDir (p : String) : String :=
  pathClean (dirPortion p)

/-- `string(filepath.ListSeparator)` on the Unix targets of this agent. -/
def listSep : String := ":"

/-- Errors visible to this package, as a closed taxonomy: the `*exec.Error`
wrapper with its cause, the `exec.ErrNotFound` sentinel, the three package
sentinels declared in `cmd.go`, process exit failures and other OS errors. -/
inductive GoError where
  | execError (cause : GoError)
  | execErrNotFound
  | errNotFound
  | errTimeout
  | errKillProcessAfterTimeout
  | exitError (code : Nat)
  | osError (msg : String)
  deriving DecidableEq

/-- `result` struct of `cmd.go`: the outcome sent on the channel. -/
structure result where
  output : String
  err : Option GoError
  deriving DecidableEq

/-- `RealCmd` struct: exported mutable `Timeout`, unexported name and args. -/
structure RealCmd where
  Timeout : Nat
  name : String
  args : List String
  deriving DecidableEq

/-- `time.Second` in nanoseconds. -/
def timeSecond : Nat := 1000000000

/-- `DefaultTimeout = 60 * time.Second`. -/
def DefaultTimeout : Nat := 60 * timeSecond

/-- `NewRealCmd`: build a `RealCmd` with the default timeout. -/
def NewRealCmd (name : String) (args : List String) : RealCmd :=
  { name := name, args := args, Timeout := DefaultTimeout }

/-- `RealCmdFactory.Make` delegates to `NewRealCmd`. -/
def RealCmdFactory.Make (name : String) (args : List String) : RealCmd :=
  NewRealCmd name args

/-- The OS-supplied data a single `Run` invocation can observe: the initial
`PATH`, the `os.Executable()` pair, `os.Args[0]`, the `os.Create` outcome,
`os.Getenv("HOME")`, `os.Environ()`, whether the timer fires before the
result arrives, the `Process.Kill` outcome, and the process's combined
output and run error. -/
structure RunEnv where
  osPath : String
  executable : String × Option GoError
  argv0 : String
  createErr : Option GoError
  home : String
  environ : List String
  timerFires : Bool
  killErr : Option GoError
  procOutput : String
  procErr : Option GoError
  deriving DecidableEq

/-- Everything observable about one `Run` call: the returned pair plus the
`PATH` value during the call and after return, whether the redirection file
was created, whether the process/background goroutine was started, the
child environment override (`cmd.Env`; `none` means inherit), the argument
list given to `exec.Command`, and `HOME` in the parent after return. -/
structure RunResult where
  output : String
  err : Option GoError
  pathDuring : String
  pathAfter : String
  fileCreated : Bool
  spawned : Bool
  childEnv : Option (List String)
  argsPassed : List String
  homeAfter : String
  deriving DecidableEq

/-- Lines 88–94 of `cmd.go`: the value `PATH` is set to for the call.  The
source tests `os.Executable()` with `err != nil`, so the resolved-executable
directory (with `/bin/` appended) is used exactly when that call FAILED, and
the `os.Args[0]` directory (bare) exactly when it succeeded. -/
def pathDuringOf (env : RunEnv) : String :=
  match env.executable with
  | (binfile, some _) => pathDir binfile ++ "/bin/" ++ listSep ++ env.osPath
  | (_, none) => pathDir env.argv0 ++ listSep ++ env.osPath

/-- Lines 103–109: scan the argument list; arguments before the first
`>`-prefixed one are kept, and that argument (stripped of `>` and trimmed)
becomes the output filename; the scan stops there. -/
def redirectLoop : List String → List String × String
  | [] => ([], "")
  | arg :: rest =>
    if goHasGt arg then ([], goTrimSpace (goTrimGt arg))
    else
      let pr := redirectLoop rest
      (arg :: pr.1, pr.2)

/-- Lines 119–122: when `HOME` is empty, `cmd.Env` becomes
`append(os.Environ(), "HOME=/root")`; otherwise `cmd.Env` stays nil. -/
def childEnvOf (env : RunEnv) : Option (List String) :=
  if env.home = "" then some (env.environ ++ ["HOME=/root"]) else none

/-- `result.err.(*exec.Error)` succeeding with `.Err == exec.ErrNotFound`. -/
def isExecNotFound : Option GoError → Bool
  | some (GoError.execError GoError.execErrNotFound) => true
  | _ => false

/-- `runCmd` (lines 148–167): the outcome the goroutine sends.  Without
redirection it carries `cmd.CombinedOutput()`; with redirection the output
field is the redirect file name and the error is from `cmd.Run()`. -/
def runCmd (env : RunEnv) (redirectFile : String) : result :=
  if redirectFile = "" then { output := env.procOutput, err := env.procErr }
  else { output := redirectFile, err := env.procErr }

/-- The `select` (lines 126–145): timer first means kill and classify;
result first means translate `exec.ErrNotFound` and otherwise pass the
outcome through unchanged. -/
def selectOutcome (env : RunEnv) (outFilename : String) : String × Option GoError :=
  if env.timerFires then
    match env.killErr with
    | some _ => ("", some GoError.errKillProcessAfterTimeout)
    | none => ("", some GoError.errTimeout)
  else
    let r := runCmd env outFilename
    if isExecNotFound r.err then ("", some GoError.errNotFound)
    else (r.output, r.err)

/-- `RealCmd.Run` (lines 81–146): set `PATH` (restored by the deferred call
on every return path), parse redirection, construct the command, create the
redirect file (returning its error before spawning when creation fails),
prepare `HOME`, start the goroutine and select on timer versus result. -/
def RealCmd.Run (c : RealCmd) (env : RunEnv) : RunResult :=
  let during := pathDuringOf env
  let pr := redirectLoop c.args
  if pr.2 ≠ "" ∧ env.createErr ≠ none then
    { output := "", err := env.createErr, pathDuring := during,
      pathAfter := env.osPath, fileCreated := false, spawned := false,
      childEnv := none, argsPassed := pr.1, homeAfter := env.home }
  else
    let oe := selectOutcome env pr.2
    { output := oe.1, err := oe.2, pathDuring := during,
      pathAfter := env.osPath, fileCreated := pr.2 ≠ "",
      spawned := true, childEnv := childEnvOf env,
      argsPassed := pr.1, homeAfter := env.home }

/-! Concrete environments used to instantiate the theorems. -/

/-- A baseline environment: `os.Executable()` succeeds with an agent binary
under `/usr/local/agent`, `os.Args[0]` lives under `/opt/run`, and the
process completes normally before the timer. -/
def envExeOk : RunEnv :=
  { osPath := "/usr/bin",
    executable := ("/usr/local/agent/percona-agent", none),
    argv0 := "/opt/run/agent", createErr := none, home := "/home/u",
    environ := ["PATH=/usr/bin", "HOME=/home/u"], timerFires := false,
    killErr := none, procOutput := "hello\n", procErr := none }

/-- Baseline with `os.Executable()` failing. -/
def envExeErr : RunEnv :=
  { envExeOk with executable := ("", some (GoError.osError "unresolved")) }

/-- Baseline with the timer firing first and the kill succeeding. -/
def envTimeout : RunEnv := { envExeOk with timerFires := true }

/-- Baseline with the timer firing first and the kill failing. -/
def envKillFail : RunEnv :=
  { envExeOk with timerFires := true,
                  killErr := some (GoError.osError "EPERM") }

/-- Baseline with the process failing to start: `exec.ErrNotFound` wrapped
in an `*exec.Error`. -/
def envNotFound : RunEnv :=
  { envExeOk with procOutput := "",
                  procErr := some (GoError.execError GoError.execErrNotFound) }

/-- Baseline with `os.Create` failing. -/
def envCreateFail : RunEnv :=
  { envExeOk with createErr := some (GoError.osError "permission denied") }

/-- Baseline with `HOME` unset/empty in the inherited environment. -/
def envNoHome : RunEnv :=
  { envExeOk with home := "", environ := ["PATH=/usr/bin"] }

/-! Helper lemmas shared by the claim theorems. -/

/-- When no argument carries the `>` marker the scan keeps everything and
produces the empty filename. -/
theorem redirectLoop_no_mark (cargs : List String)
    (h : ∀ a ∈ cargs, goHasGt a = false) :
    redirectLoop cargs = (cargs, "") := by
  induction cargs with
  | nil => rfl
  | cons a rest ih =>
    have ha := h a (List.mem_cons_self a rest)
    have hrest := ih (fun b hb => h b (List.mem_cons_of_mem a hb))
    simp [redirectLoop, ha, hrest]

/-- The scan stops at the first `>`-prefixed argument: everything before it
is kept, it and everything after are dropped, and the filename is its
remainder after stripping `>` and trimming. -/
theorem redirectLoop_first_mark (pre : List String) (arg : String)
    (post : List String)
    (hpre : ∀ a ∈ pre, goHasGt a = false)
    (hgt : goHasGt arg = true) :
    redirectLoop (pre ++ arg :: post) =
      (pre, goTrimSpace (goTrimGt arg)) := by
  induction pre with
  | nil => simp [redirectLoop, hgt]
  | cons a rest ih =>
    have ha := hpre a (List.mem_cons_self a rest)
    have hrest := ih (fun b hb => hpre b (List.mem_cons_of_mem a hb))
    simp [redirectLoop, ha, hrest]

/-- When the guard for the early create-failure return does not hold,
`Run` reaches the select and assembles the outcome from `selectOutcome`. -/
theorem run_select (c : RealCmd) (env : RunEnv)
    (hsel : (redirectLoop c.args).2 = "" ∨ env.createErr = none) :
    c.Run env =
      { output := (selectOutcome env (redirectLoop c.args).2).1,
        err := (selectOutcome env (redirectLoop c.args).2).2,
        pathDuring := pathDuringOf env, pathAfter := env.osPath,
        fileCreated := (redirectLoop c.args).2 ≠ "", spawned := true,
        childEnv := childEnvOf env, argsPassed := (redirectLoop c.args).1,
        homeAfter := env.home } := by
  have hguard : ¬((redirectLoop c.args).2 ≠ "" ∧ env.createErr ≠ none) := by
    rcases hsel with h | h
    · exact fun hc => hc.1 h
    · exact fun hc => hc.2 h
  simp only [RealCmd.Run, if_neg hguard]

/-- When redirection is requested and `os.Create` fails, `Run` takes the
early return: the create error, nothing created, nothing spawned. -/
theorem run_createFail (c : RealCmd) (env : RunEnv) (e : GoError)
    (hf : (redirectLoop c.args).2 ≠ "") (hc : env.createErr = some e) :
    c.Run env =
      { output := "", err := some e, pathDuring := pathDuringOf env,
        pathAfter := env.osPath, fileCreated := false, spawned := false,
        childEnv := none, argsPassed := (redirectLoop c.args).1,
        homeAfter := env.home } := by
  simp only [RealCmd.Run, hc]
  rw [if_pos ⟨hf, by simp⟩]

/-! The claim theorems. -/

/-- Claim C1 (code bug evaluation): at a concrete invocation where
`os.Executable()` resolves to `/usr/local/agent/percona-agent` and
`os.Args[0]` is `/opt/run/agent`, the code sets `PATH` to the `os.Args[0]`
directory without `/bin` (`/opt/run:/usr/bin`), not to the claimed
executable-directory-plus-`/bin` value; and when `os.Executable()` fails it
appends `/bin/` to the directory of the failed call's (empty) result rather
than using the `os.Args[0]` directory.  The `err != nil` test at line 88 is
inverted: the branch that consumes the resolved path runs exactly when the
resolution failed. -/
theorem C1_inverted_executable_check :
    ((NewRealCmd "echo" ["x"]).Run envExeOk).pathDuring = "/opt/run:/usr/bin" ∧
    "/opt/run:/usr/bin" ≠
      pathDir "/usr/local/agent/percona-agent" ++ "/bin" ++ listSep ++ "/usr/bin" ∧
    ((NewRealCmd "echo" ["x"]).Run envExeErr).pathDuring = "./bin/:/usr/bin" ∧
    "./bin/:/usr/bin" ≠ pathDir "/opt/run/agent" ++ listSep ++ "/usr/bin" := by
  refine ⟨rfl, by decide, rfl, by decide⟩

/-- Claim C2: with no `>`-prefixed argument the list passed to the process
is the original list and no redirection target is produced; with a first
`>`-prefixed argument at position `i`, the list passed is the sublist before
`i` and the target is that argument minus the leading `>`, whitespace
trimmed. -/
theorem C2_redirect_parse :
    (∀ cargs : List String,
      (∀ a ∈ cargs, goHasGt a = false) →
      redirectLoop cargs = (cargs, "")) ∧
    (∀ (pre : List String) (arg : String) (post : List String),
      (∀ a ∈ pre, goHasGt a = false) → goHasGt arg = true →
      redirectLoop (pre ++ arg :: post) = (pre, goTrimSpace (goTrimGt arg))) :=
  ⟨redirectLoop_no_mark, redirectLoop_first_mark⟩

theorem C2_redirect_parse_witness :
    redirectLoop ["a", "b"] = (["a", "b"], "") ∧
    redirectLoop ["a", "> /tmp/out.txt", "b"] = (["a"], "/tmp/out.txt") :=
  ⟨C2_redirect_parse.1 ["a", "b"] (by decide),
   (C2_redirect_parse.2 ["a"] "> /tmp/out.txt" ["b"] (by decide)
     (by decide)).trans (by decide)⟩

/-- Claim C3: when the timer fires before the outcome, `Run` returns the
empty string together with `ErrTimeout` when the kill succeeds and with
`ErrKillProcessAfterTimeout` when the kill fails; no captured output
reaches the caller in either branch. -/
theorem C3_timeout_branch (c : RealCmd) (env : RunEnv)
    (hsel : (redirectLoop c.args).2 = "" ∨ env.createErr = none)
    (ht : env.timerFires = true) :
    (c.Run env).output = "" ∧
    (env.killErr = none → (c.Run env).err = some GoError.errTimeout) ∧
    (env.killErr ≠ none →
      (c.Run env).err = some GoError.errKillProcessAfterTimeout) := by
  rw [run_select c env hsel]
  cases hk : env.killErr <;> simp [selectOutcome, ht, hk]

theorem C3_timeout_branch_witness :
    (((NewRealCmd "sleep" ["5"]).Run envTimeout).output = "" ∧
      (envTimeout.killErr = none →
        ((NewRealCmd "sleep" ["5"]).Run envTimeout).err =
          some GoError.errTimeout) ∧
      (envTimeout.killErr ≠ none →
        ((NewRealCmd "sleep" ["5"]).Run envTimeout).err =
          some GoError.errKillProcessAfterTimeout)) ∧
    (((NewRealCmd "sleep" ["5"]).Run envKillFail).output = "" ∧
      (envKillFail.killErr = none →
        ((NewRealCmd "sleep" ["5"]).Run envKillFail).err =
          some GoError.errTimeout) ∧
      (envKillFail.killErr ≠ none →
        ((NewRealCmd "sleep" ["5"]).Run envKillFail).err =
          some GoError.errKillProcessAfterTimeout)) :=
  ⟨C3_timeout_branch (NewRealCmd "sleep" ["5"]) envTimeout (Or.inr rfl) rfl,
   C3_timeout_branch (NewRealCmd "sleep" ["5"]) envKillFail (Or.inr rfl) rfl⟩

/-- Claim C4: when the outcome arrives before the timer, an `*exec.Error`
whose cause is `exec.ErrNotFound` becomes `("", ErrNotFound)`; every other
outcome — nil error or any other error, exit failures included — is passed
through with output and error unchanged. -/
theorem C4_outcome_branch (c : RealCmd) (env : RunEnv)
    (hsel : (redirectLoop c.args).2 = "" ∨ env.createErr = none)
    (ht : env.timerFires = false) :
    (isExecNotFound (runCmd env (redirectLoop c.args).2).err = true →
      (c.Run env).output = "" ∧
      (c.Run env).err = some GoError.errNotFound) ∧
    (isExecNotFound (runCmd env (redirectLoop c.args).2).err = false →
      (c.Run env).output = (runCmd env (redirectLoop c.args).2).output ∧
      (c.Run env).err = (runCmd env (redirectLoop c.args).2).err) := by
  rw [run_select c env hsel]
  cases hnf : isExecNotFound (runCmd env (redirectLoop c.args).2).err <;>
    simp [selectOutcome, ht, hnf]

theorem C4_outcome_branch_witness :
    ((isExecNotFound (runCmd envNotFound
        (redirectLoop (NewRealCmd "nosuch" []).args).2).err = true →
      ((NewRealCmd "nosuch" []).Run envNotFound).output = "" ∧
      ((NewRealCmd "nosuch" []).Run envNotFound).err =
        some GoError.errNotFound) ∧
     (isExecNotFound (runCmd envNotFound
        (redirectLoop (NewRealCmd "nosuch" []).args).2).err = false →
      ((NewRealCmd "nosuch" []).Run envNotFound).output =
        (runCmd envNotFound (redirectLoop (NewRealCmd "nosuch" []).args).2).output ∧
      ((NewRealCmd "nosuch" []).Run envNotFound).err =
        (runCmd envNotFound (redirectLoop (NewRealCmd "nosuch" []).args).2).err)) ∧
    ((isExecNotFound (runCmd envExeOk
        (redirectLoop (NewRealCmd "echo" ["hello"]).args).2).err = true →
      ((NewRealCmd "echo" ["hello"]).Run envExeOk).output = "" ∧
      ((NewRealCmd "echo" ["hello"]).Run envExeOk).err =
        some GoError.errNotFound) ∧
     (isExecNotFound (runCmd envExeOk
        (redirectLoop (NewRealCmd "echo" ["hello"]).args).2).err = false →
      ((NewRealCmd "echo" ["hello"]).Run envExeOk).output =
        (runCmd envExeOk (redirectLoop (NewRealCmd "echo" ["hello"]).args).2).output ∧
      ((NewRealCmd "echo" ["hello"]).Run envExeOk).err =
        (runCmd envExeOk (redirectLoop (NewRealCmd "echo" ["hello"]).args).2).err)) :=
  ⟨C4_outcome_branch (NewRealCmd "nosuch" []) envNotFound (Or.inr rfl) rfl,
   C4_outcome_branch (NewRealCmd "echo" ["hello"]) envExeOk (Or.inr rfl) rfl⟩

/-- Claim C5: when redirection is requested and creating the destination
file fails, `Run` returns the empty string and the creation error, with no
file created and no process or background goroutine started. -/
theorem C5_create_failure (c : RealCmd) (env : RunEnv) (e : GoError)
    (hf : (redirectLoop c.args).2 ≠ "") (hc : env.createErr = some e) :
    (c.Run env).output = "" ∧ (c.Run env).err = some e ∧
    (c.Run env).spawned = false ∧ (c.Run env).fileCreated = false := by
  rw [run_createFail c env e hf hc]
  exact ⟨rfl, rfl, rfl, rfl⟩

theorem C5_create_failure_witness :
    ((NewRealCmd "echo" ["hi", ">/root/out"]).Run envCreateFail).output = "" ∧
    ((NewRealCmd "echo" ["hi", ">/root/out"]).Run envCreateFail).err =
      some (GoError.osError "permission denied") ∧
    ((NewRealCmd "echo" ["hi", ">/root/out"]).Run envCreateFail).spawned = false ∧
    ((NewRealCmd "echo" ["hi", ">/root/out"]).Run envCreateFail).fileCreated = false :=
  C5_create_failure (NewRealCmd "echo" ["hi", ">/root/out"]) envCreateFail
    (GoError.osError "permission denied") (by decide) rfl

/-- Claim C6: on every exit path — normal completion, not-found, early
create failure, timeout with or without a successful kill — the deferred
call restores `PATH` to the value it held on entry. -/
theorem C6_path_restored (c : RealCmd) (env : RunEnv) :
    (c.Run env).pathAfter = env.osPath := by
  simp only [RealCmd.Run]
  split <;> rfl

/-- Claim C7: the goroutine's outcome carries the destination path string
(not the process text) as its output when redirecting, and the combined
standard-output-and-standard-error text when not, in both cases paired with
the error from running the process. -/
theorem C7_runCmd_outcome (env : RunEnv) (f : String) :
    (f ≠ "" → runCmd env f = { output := f, err := env.procErr }) ∧
    runCmd env "" = { output := env.procOutput, err := env.procErr } := by
  refine ⟨fun hf => ?_, rfl⟩
  simp [runCmd, hf]

theorem C7_runCmd_outcome_witness :
    runCmd envExeOk "/tmp/out.txt" =
      { output := "/tmp/out.txt", err := envExeOk.procErr } :=
  (C7_runCmd_outcome envExeOk "/tmp/out.txt").1 (by decide)

/-- Claim C8: when the spawn point is reached, an empty/unset `HOME` makes
the child environment the parent's full environment plus `HOME=/root`
while the parent's `HOME` stays what it was; a non-empty `HOME` leaves the
child inheriting with no override. -/
theorem C8_home_fallback (c : RealCmd) (env : RunEnv)
    (hsel : (redirectLoop c.args).2 = "" ∨ env.createErr = none) :
    (env.home = "" →
      (c.Run env).childEnv = some (env.environ ++ ["HOME=/root"]) ∧
      (c.Run env).homeAfter = env.home) ∧
    (env.home ≠ "" →
      (c.Run env).childEnv = none ∧ (c.Run env).homeAfter = env.home) := by
  rw [run_select c env hsel]
  constructor
  · intro hh
    simp [childEnvOf, hh]
  · intro hh
    simp [childEnvOf, hh]

theorem C8_home_fallback_witness :
    ((envNoHome.home = "" →
      ((NewRealCmd "df" []).Run envNoHome).childEnv =
        some (envNoHome.environ ++ ["HOME=/root"]) ∧
      ((NewRealCmd "df" []).Run envNoHome).homeAfter = envNoHome.home) ∧
     (envNoHome.home ≠ "" →
      ((NewRealCmd "df" []).Run envNoHome).childEnv = none ∧
      ((NewRealCmd "df" []).Run envNoHome).homeAfter = envNoHome.home)) ∧
    ((envExeOk.home = "" →
      ((NewRealCmd "df" []).Run envExeOk).childEnv =
        some (envExeOk.environ ++ ["HOME=/root"]) ∧
      ((NewRealCmd "df" []).Run envExeOk).homeAfter = envExeOk.home) ∧
     (envExeOk.home ≠ "" →
      ((NewRealCmd "df" []).Run envExeOk).childEnv = none ∧
      ((NewRealCmd "df" []).Run envExeOk).homeAfter = envExeOk.home)) :=
  ⟨C8_home_fallback (NewRealCmd "df" []) envNoHome (Or.inr rfl),
   C8_home_fallback (NewRealCmd "df" []) envExeOk (Or.inr rfl)⟩

/-- Claim C9: `Make`/`NewRealCmd` initialise the timeout to
`DefaultTimeout = 60 * time.Second`; the `Timeout` field can be overridden
per instance, leaving the name, the arguments, other instances and the
default untouched. -/
theorem C9_default_timeout :
    (∀ (name : String) (args : List String),
      (RealCmdFactory.Make name args).Timeout = DefaultTimeout ∧
      (NewRealCmd name args).Timeout = 60 * timeSecond) ∧
    (∀ (name : String) (args : List String) (d : Nat),
      ({ NewRealCmd name args with Timeout := d } : RealCmd).Timeout = d ∧
      ({ NewRealCmd name args with Timeout := d } : RealCmd).name = name ∧
      ({ NewRealCmd name args with Timeout := d } : RealCmd).args = args ∧
      (NewRealCmd name args).Timeout = DefaultTimeout) :=
  ⟨fun _ _ => ⟨rfl, rfl⟩, fun _ _ _ => ⟨rfl, rfl, rfl, rfl⟩⟩

/-- Claim C10: when the first `>`-prefixed argument trims to the empty
string, no redirection happens — no file is created and the combined
output is returned as text — yet that argument and everything after it are
still dropped from the list passed to the process. -/
theorem C10_empty_target (c : RealCmd) (env : RunEnv)
    (pre : List String) (arg : String) (post : List String)
    (hargs : c.args = pre ++ arg :: post)
    (hpre : ∀ a ∈ pre, goHasGt a = false)
    (hgt : goHasGt arg = true)
    (htrim : goTrimSpace (goTrimGt arg) = "")
    (ht : env.timerFires = false)
    (hnf : isExecNotFound env.procErr = false) :
    redirectLoop c.args = (pre, "") ∧
    (c.Run env).fileCreated = false ∧
    (c.Run env).argsPassed = pre ∧
    (c.Run env).output = env.procOutput ∧
    (c.Run env).err = env.procErr := by
  have hrl : redirectLoop c.args = (pre, "") := by
    rw [hargs, redirectLoop_first_mark pre arg post hpre hgt, htrim]
  have hsel : (redirectLoop c.args).2 = "" ∨ env.createErr = none :=
    Or.inl (by rw [hrl])
  rw [run_select c env hsel]
  refine ⟨hrl, ?_, ?_, ?_, ?_⟩
  · simp [hrl]
  · simp [hrl]
  · simp [selectOutcome, runCmd, ht, hrl, hnf]
  · simp [selectOutcome, runCmd, ht, hrl, hnf]

theorem C10_empty_target_witness :
    redirectLoop (NewRealCmd "echo" ["hi", ">", "late"]).args = (["hi"], "") ∧
    ((NewRealCmd "echo" ["hi", ">", "late"]).Run envExeOk).fileCreated = false ∧
    ((NewRealCmd "echo" ["hi", ">", "late"]).Run envExeOk).argsPassed = ["hi"] ∧
    ((NewRealCmd "echo" ["hi", ">", "late"]).Run envExeOk).output = envExeOk.procOutput ∧
    ((NewRealCmd "echo" ["hi", ">", "late"]).Run envExeOk).err = envExeOk.procErr :=
  C10_empty_target (NewRealCmd "echo" ["hi", ">", "late"]) envExeOk
    ["hi"] ">" ["late"] rfl (by decide) (by decide) (by decide) rfl rfl

end QanCmd
